import Mathlib

/-!
# Verification of the kino.pub AI bookmarks reconciliation engine

Shallow embedding of the token lifecycle (`src/services/auth.ts`), the
resilient request wrapper and catalog gateway (`src/services/kino-pub-client.ts`),
the recommendation reconciliation pass (`src/scripts/ai-recommend.ts`) and the
bulk folder cleanup (`clean-bookmarks` script), together with theorems that
settle the specification claims against those definitions.

Titles are modelled as lists of characters so that every JavaScript string
operation used by the source (`toLowerCase`, `trim`, `includes`, `split('/')[0]`,
regex replaces) becomes an executable Lean function.
-/

/-- Titles and other remote-service strings, as character lists. -/
abbrev Title := List Char

/-- JavaScript whitespace class `\s`, restricted to the ASCII whitespace that
occurs in the data handled by this program. -/
def isSpaceChar (c : Char) : Bool :=
  c == ' ' || c == '\t' || c == '\n' || c == '\r'

/-- One character of JavaScript `String.prototype.toLowerCase`, covering the
ASCII range and the Cyrillic range (U+0410..U+042F plus Ё) that appear in
kino.pub dual-language titles.  Other characters are left unchanged. -/
def jsLowerChar (c : Char) : Char :=
  if 'A' ≤ c ∧ c ≤ 'Z' then Char.ofNat (c.toNat + 32)
  else if 'А' ≤ c ∧ c ≤ 'Я' then Char.ofNat (c.toNat + 32)
  else if c = 'Ё' then 'ё'
  else c

/-- JavaScript `toLowerCase` on a title. -/
def jsToLower (t : Title) : Title := t.map jsLowerChar

/-- JavaScript `trim`: drop leading and trailing whitespace. -/
def jsTrim (t : Title) : Title :=
  ((t.dropWhile isSpaceChar).reverse.dropWhile isSpaceChar).reverse

/-- `needle` is a leading segment of `hay`. -/
def leadsWith : Title → Title → Bool
  | [], _ => true
  | _ :: _, [] => false
  | a :: as, b :: bs => a == b && leadsWith as bs

/-- JavaScript `hay.includes(needle)`: substring containment. -/
def containsSub (hay needle : Title) : Bool :=
  match hay with
  | [] => needle.isEmpty
  | _ :: rest => leadsWith needle hay || containsSub rest needle

/-- `split('/')[0]`: the segment of a title before the first `/` (the whole
title when no `/` occurs). -/
def beforeSlash (t : Title) : Title := t.takeWhile (fun c => c ≠ '/')

/-- The regex replace `\s*\(\d{4}\)\s*$` → `""`: remove a trailing
parenthesised four-digit year together with surrounding whitespace; leave the
title unchanged when the suffix does not match. -/
def stripYearSuffix (t : Title) : Title :=
  match t.reverse.dropWhile isSpaceChar with
  | ')' :: d1 :: d2 :: d3 :: d4 :: '(' :: rest =>
    if d1.isDigit && d2.isDigit && d3.isDigit && d4.isDigit then
      ((rest.dropWhile isSpaceChar).reverse)
    else t
  | _ => t

/-- `parseRecommendation(rec).title`: strip a trailing `"(YYYY)"` then trim
(`ai-recommend.ts` lines 800-809). -/
def parseRecTitle (rec : Title) : Title := jsTrim (stripYearSuffix rec)

/-- The regex replace `^[^/]*\/\s*` → `""`: drop everything up to and
including the first `/` and the whitespace after it; identity when the title
has no `/`. -/
def dropLangSegment (t : Title) : Title :=
  if t.any (fun c => c = '/') then
    ((t.dropWhile (fun c => c ≠ '/')).drop 1).dropWhile isSpaceChar
  else t

/-- The "clean title" used by the duplicate checks of `ai-recommend.ts`
(lines 393-394, 408-409, 428-429): strip the language segment, then trim. -/
def cleanTitle (t : Title) : Title := jsTrim (dropLangSegment t)

/-- The regex replace `[:\-\s]+` → `""` followed by `toLowerCase`: the tight
comparison key of the not-interested cleanup (`ai-recommend.ts` lines 749-750). -/
def tightKey (t : Title) : Title :=
  jsToLower (t.filter (fun c => !(c == ':' || c == '-' || isSpaceChar c)))

section TokenLifecycle

/-- `StoredTokens` of `src/services/auth.ts`: the persisted token pair. -/
structure StoredTokens where
  accessToken : String
  refreshToken : String
  accessTokenExpire : Int
  deriving Repr, DecidableEq

/-- A token-endpoint success payload (`TokenResponse` of `auth.ts`). -/
structure TokenResponse where
  access_token : String
  refresh_token : String
  expires_in : Int
  deriving Repr, DecidableEq

/-- `AuthenticationService.isAuthenticated` (`auth.ts` lines 55-65): a token
pair exists and its expiry lies strictly beyond now plus a 5-minute buffer.
Times are Unix milliseconds. -/
def isAuthenticated (tokens : Option StoredTokens) (now : Int) : Bool :=
  match tokens with
  | none => false
  | some t => decide (t.accessTokenExpire > now + 5 * 60 * 1000)

/-- `AuthenticationService.storeTokens` (`auth.ts` lines 292-299): build the
persisted pair, with expiry `Date.now() + expires_in * 1000`. -/
def tokensFromResponse (r : TokenResponse) (now : Int) : StoredTokens :=
  { accessToken := r.access_token
    refreshToken := r.refresh_token
    accessTokenExpire := now + r.expires_in * 1000 }

/-- Failure tags of `AuthenticationError`. -/
inductive AuthFailure
  | noTokens
  | refreshFailed
  | codeExpired
  | tokenRequestFailed
  | network
  | timeout
  deriving Repr, DecidableEq

/-- `AuthenticationService.getAccessToken` (`auth.ts` lines 70-89).  The
network refresh is passed in as its outcome.  Returns the access token handed
to the caller together with the stored state after the call; the source never
calls `storeTokens` on this path, so the stored state is returned unchanged. -/
def getAccessToken (stored : Option StoredTokens) (now : Int)
    (refreshOutcome : Except Unit TokenResponse) :
    Except AuthFailure (String × Option StoredTokens) :=
  match stored with
  | none => .error .noTokens
  | some t =>
    if isAuthenticated (some t) now then .ok (t.accessToken, some t)
    else
      match refreshOutcome with
      | .ok r => .ok (r.access_token, some t)
      | .error _ => .error .refreshFailed

/-- `AuthenticationService.refreshSession` (`auth.ts` lines 128-142): on a
successful refresh the response is persisted via `storeTokens`; on failure the
stored state is untouched and `false` is returned. -/
def refreshSession (stored : Option StoredTokens) (now : Int)
    (refreshOutcome : Except Unit TokenResponse) : Bool × Option StoredTokens :=
  match stored with
  | none => (false, none)
  | some t =>
    if t.refreshToken = "" then (false, some t)
    else
      match refreshOutcome with
      | .ok r => (true, some (tokensFromResponse r now))
      | .error _ => (false, some t)

/-- One token-endpoint answer during device-flow polling. -/
inductive PollResp
  | success (t : TokenResponse)
  | pending
  | codeExpired
  | otherError
  | networkError
  deriving Repr

/-- `pollForToken` polling interval (`auth.ts` line 182):
`max(deviceAuth.interval * 1000, 2500)` milliseconds. -/
def pollIntervalMs (serverInterval : Nat) : Nat :=
  max (serverInterval * 1000) 2500

/-- Result of a full polling run: the outcome, the number of token-endpoint
attempts issued, and the list of sleeps performed between attempts. -/
structure PollTrace where
  result : Except AuthFailure TokenResponse
  attempts : Nat
  delays : List Nat
  deriving Repr

/-- The polling loop of `AuthenticationService.pollForToken`
(`auth.ts` lines 180-231).  `resp n` is the endpoint's answer to the
`n`-th attempt (0-based); `fuel` is the number of attempts still allowed,
`attempt` the index of the next one.  `authorization_pending` sleeps for the
poll interval and continues; `code_expired` and any other error fail fast;
exhausting the 120-attempt budget is a timeout. -/
def pollLoop (resp : Nat → PollResp) (ivl : Nat) :
    Nat → Nat → List Nat → PollTrace
  | 0, attempt, delays => ⟨.error .timeout, attempt, delays⟩
  | fuel + 1, attempt, delays =>
    match resp attempt with
    | .success t => ⟨.ok t, attempt + 1, delays⟩
    | .pending => pollLoop resp ivl fuel (attempt + 1) (delays ++ [ivl])
    | .codeExpired => ⟨.error .codeExpired, attempt + 1, delays⟩
    | .otherError => ⟨.error .tokenRequestFailed, attempt + 1, delays⟩
    | .networkError => ⟨.error .network, attempt + 1, delays⟩

/-- `pollForToken` with the hard cap of 120 attempts (`auth.ts` line 181). -/
def pollForToken (resp : Nat → PollResp) (serverInterval : Nat) : PollTrace :=
  pollLoop resp (pollIntervalMs serverInterval) 120 0 []

/-- `AuthenticationService.authenticate` (`auth.ts` lines 94-123) after the
device code has been obtained: poll, and on success persist the pair via
`storeTokens` and return `true`; on any failure return `false` and leave the
stored state as it was. -/
def authenticate (resp : Nat → PollResp) (serverInterval : Nat) (now : Int)
    (stored : Option StoredTokens) : Bool × Option StoredTokens :=
  match (pollForToken resp serverInterval).result with
  | .ok t => (true, some (tokensFromResponse t now))
  | .error _ => (false, stored)

end TokenLifecycle

section ResilientClient

/-- Outcome of one physical HTTP attempt, as the wrapper distinguishes them:
a well-formed success body, an HTTP error status, or a non-HTTP
(network/timeout) error. -/
inductive ReqResult
  | success
  | http (status : Nat)
  | network
  deriving Repr, DecidableEq

/-- Error taxonomy of `kino-pub-client.ts`: `KinoPubAuthError`, and
`KinoPubApiError` with codes `RATE_LIMITED`, `SERVER_ERROR`,
`NETWORK_ERROR`, or none (other 4xx). -/
inductive ClientError
  | authError
  | rateLimited
  | serverError
  | networkError
  | apiError (status : Nat)
  | unknown
  deriving Repr, DecidableEq

/-- Result of a wrapped request: outcome, number of attempts issued, and the
backoff delays slept between attempts. -/
structure ReqTrace where
  result : Except ClientError Unit
  attempts : Nat
  delays : List Nat
  deriving Repr

/-- The retry loop of `KinoPubClient.makeAuthenticatedRequest`
(`kino-pub-client.ts` lines 432-548), with `maxRetries = 3` and
`retryDelay = 2000`.  `resp a` is the outcome of attempt `a` (1-based);
`refreshOk a` tells whether the token refresh attempted after a 401 on
attempt `a` succeeds.  401 retries only after a successful refresh; 429 and
5xx sleep `retryDelay * attempt` and retry while attempts remain; other HTTP
errors surface immediately; non-HTTP errors back off like 5xx. -/
def requestLoop (resp : Nat → ReqResult) (refreshOk : Nat → Bool) :
    Nat → Nat → List Nat → ReqTrace
  | 0, attempt, delays => ⟨.error .unknown, attempt - 1, delays⟩
  | fuel + 1, attempt, delays =>
    match resp attempt with
    | .success => ⟨.ok (), attempt, delays⟩
    | .http status =>
      if status = 401 then
        if attempt < 3 ∧ refreshOk attempt then
          requestLoop resp refreshOk fuel (attempt + 1) delays
        else ⟨.error .authError, attempt, delays⟩
      else if status = 429 then
        if attempt < 3 then
          requestLoop resp refreshOk fuel (attempt + 1) (delays ++ [2000 * attempt])
        else ⟨.error .rateLimited, attempt, delays⟩
      else if status ≥ 500 then
        if attempt < 3 then
          requestLoop resp refreshOk fuel (attempt + 1) (delays ++ [2000 * attempt])
        else ⟨.error .serverError, attempt, delays⟩
      else ⟨.error (.apiError status), attempt, delays⟩
    | .network =>
      if attempt < 3 then
        requestLoop resp refreshOk fuel (attempt + 1) (delays ++ [2000 * attempt])
      else ⟨.error .networkError, attempt, delays⟩

/-- `makeAuthenticatedRequest`: at most 3 attempts, starting at attempt 1. -/
def makeAuthenticatedRequest (resp : Nat → ReqResult) (refreshOk : Nat → Bool) :
    ReqTrace :=
  requestLoop resp refreshOk 3 1 []

end ResilientClient

section Gateway

/-- Pagination metadata of a bookmark-folder page (`current`/`total`). -/
structure Pagination where
  current : Nat
  total : Nat
  deriving Repr, DecidableEq

/-- A bookmark item as the engine consumes it. -/
structure BookmarkItem where
  id : Nat
  title : Title
  deriving Repr, DecidableEq

/-- One page of a bookmark folder, after the gateway's envelope
normalization: the item list and optional pagination metadata. -/
structure FolderPage where
  items : List BookmarkItem
  pagination : Option Pagination
  deriving Repr

/-- The page-accumulation loop of `KinoPubClient.getAllBookmarkFolderItems`
(`kino-pub-client.ts` lines 110-131).  `pages p` is the folder's page `p`
(1-based).  After each page, when pagination metadata is present with
`total > 1` the loop advances to the next page while it is within `total`;
otherwise it stops.  `fuel` bounds the number of page fetches; `none` means
the bound was hit before the loop ended. -/
def folderPagesLoop (pages : Nat → FolderPage) :
    Nat → Nat → List BookmarkItem → Option (List BookmarkItem)
  | 0, _, _ => none
  | fuel + 1, currentPage, acc =>
    let resp := pages currentPage
    let acc := acc ++ resp.items
    match resp.pagination with
    | some pag =>
      if pag.total > 1 then
        if currentPage + 1 ≤ pag.total then
          folderPagesLoop pages fuel (currentPage + 1) acc
        else some acc
      else some acc
    | none => some acc

/-- `getAllBookmarkFolderItems` run with a given fetch budget. -/
def getAllBookmarkFolderItems (pages : Nat → FolderPage) (fuel : Nat) :
    Option (List BookmarkItem) :=
  folderPagesLoop pages fuel 1 []

end Gateway

section WatchStatus

/-- The response item of the `/watching?id=` endpoint, reduced to the fields
`isItemWatched` reads: per-season episode status flags and per-video status
flags (each flag an integer, `1` = complete, `0` = started). -/
structure WatchingInfo where
  seasons : Option (List (List Int))
  videos : Option (List Int)
  deriving Repr

/-- The aggregate returned by `KinoPubClient.isItemWatched`. -/
structure WatchState where
  isWatched : Bool
  isFullyWatched : Bool
  progress : Option (Nat × Nat)
  deriving Repr, DecidableEq

/-- `KinoPubClient.isItemWatched` (`kino-pub-client.ts` lines 352-411), with
the underlying `getWatchingStatus` request passed in as its outcome: a thrown
error or an absent `item` yield `{isWatched := false, isFullyWatched := false}`;
otherwise episode and video status flags are folded into totals.  The
fully-watched flag is recomputed after the video block over the combined
totals, exactly as the imperative source does. -/
def isItemWatched (resp : Except Unit (Option WatchingInfo)) : WatchState :=
  match resp with
  | .error _ => ⟨false, false, none⟩
  | .ok none => ⟨false, false, none⟩
  | .ok (some info) =>
    let eps := match info.seasons with
      | some ss => ss.flatten
      | none => []
    let vids := match info.videos with
      | some vs => vs
      | none => []
    let all := eps ++ vids
    let total := all.length
    let watched := (all.filter (fun s => s == 1)).length
    let isW := all.any (fun s => s == 1 || s == 0)
    let isF :=
      match info.videos, info.seasons with
      | some _, _ => total > 0 && watched == total
      | none, some _ => total > 0 && watched == total
      | none, none => false
    ⟨isW, isF, some (total, watched)⟩

end WatchStatus

section Reconciliation

/-- A search hit (`bestMatch`) with the fields the decision logic reads:
remote id, title, `type`, optional `subtype`, genre ids, the optional
IMDB-equivalent rating, and the subscription flag. -/
structure MediaItem where
  id : Nat
  title : Title
  kind : Title
  subtype : Option Title
  genres : List Nat
  imdbRating : Option Rat
  subscribed : Bool
  deriving Repr, DecidableEq

/-- A row of the local watched/bookmark caches as the duplicate checks use
it: remote id and title. -/
structure LocalRec where
  kinoPubId : Nat
  title : Title
  deriving Repr, DecidableEq

/-- The exclusion-title list of `ai-recommend.ts` lines 153-156: watched,
bookmarked and not-interested titles, lower-cased and concatenated in that
order. -/
def buildExcludedTitles (watched bookmarked notInterested : List Title) :
    List Title :=
  (watched.map jsToLower) ++ (bookmarked.map jsToLower) ++
    (notInterested.map jsToLower)

/-- The pre-search exclusion test of `ai-recommend.ts` lines 158-167: the
parsed, lower-cased suggestion title is compared by mutual substring
containment against the segment of each excluded title before its first `/`. -/
def isExcludedRec (excludedTitles : List Title) (rec : Title) : Bool :=
  let recTitle := jsToLower (parseRecTitle rec)
  excludedTitles.any (fun excluded =>
    let excludedClean := jsToLower (jsTrim (beforeSlash excluded))
    let recClean := jsToLower (jsTrim recTitle)
    containsSub excludedClean recClean || containsSub recClean excludedClean)

/-- The filter applied to the raw model suggestions before anything is
searched (`ai-recommend.ts` lines 158-175); only its output enters the
search loop at line 247. -/
def filterRecommendations (excludedTitles : List Title) (recs : List Title) :
    List Title :=
  recs.filter (fun rec => !isExcludedRec excludedTitles rec)

/-- The asymmetric title-similarity test shared by the three duplicate checks
of `ai-recommend.ts` (lines 391-398, 406-413, 424-433), with `a` the stored
title and `b` the search hit's title. -/
def titleSimilar (a b : Title) : Bool :=
  let at0 := jsTrim (jsToLower a)
  let bt0 := jsTrim (jsToLower b)
  let ca := cleanTitle at0
  let cb := cleanTitle bt0
  ca == cb || containsSub at0 cb || containsSub bt0 ca

/-- One stored record matches the search hit: by remote id or by title
similarity. -/
def matchesLocal (r : LocalRec) (best : MediaItem) : Bool :=
  r.kinoPubId == best.id || titleSimilar r.title best.title

/-- One item already in the AI folders matches the search hit (the
`alreadyInAIFolder` predicate, `ai-recommend.ts` lines 417-434). -/
def folderDupMatch (item best : MediaItem) : Bool :=
  item.id == best.id || titleSimilar item.title best.title

/-- `"movie"` as a title. -/
def movieStr : Title := "movie".data

/-- `"serial"` as a title. -/
def serialStr : Title := "serial".data

/-- `bestMatch.type === 'movie' || bestMatch.subtype === 'movie'`. -/
def isMovieHit (best : MediaItem) : Bool :=
  best.kind == movieStr || best.subtype == some movieStr

/-- `bestMatch.type === 'serial' || bestMatch.subtype === 'serial'`. -/
def isSerialHit (best : MediaItem) : Bool :=
  best.kind == serialStr || best.subtype == some serialStr

/-- The anime check of `ai-recommend.ts` lines 301-302: some genre id is 25. -/
def isAnime (best : MediaItem) : Bool :=
  best.genres.any (fun g => g == 25)

/-- The IMDB rating filter of `ai-recommend.ts` lines 308-324: `true` when
the candidate is skipped.  A candidate without a rating — including a rating
of 0, which is falsy in JavaScript — is not filtered; movies are rejected
below 6.0 and serials below 7.0. -/
def ratingRejected (best : MediaItem) : Bool :=
  match best.imdbRating with
  | none => false
  | some r =>
    if r = 0 then false
    else if isMovieHit best ∧ r < 6 then true
    else if isSerialHit best ∧ r < 7 then true
    else false

/-- Where a processed suggestion ends up (one constructor per exit of the
per-recommendation body of `ai-recommend.ts` lines 282-514). -/
inductive Outcome
  | skippedAnime
  | skippedRating
  | subscribedToWatched
  | skippedBookmarked
  | skippedWatched
  | skippedInAIFolder
  | watchingToWatched
  | addedToFolder
  deriving Repr, DecidableEq

/-- The in-memory state the batch threads through its suggestions: the
bookmark cache, the watched cache (grown when a hit is recorded as watched),
and the live AI-folder contents (grown when a hit is bookmarked). -/
structure BatchState where
  bookmarkedItems : List LocalRec
  allWatchedItems : List LocalRec
  currentAIFolderItems : List MediaItem
  deriving Repr

/-- The decision body applied to one search hit (`ai-recommend.ts` lines
300-514): anime check, rating floor, subscription short-circuit, the three
duplicate checks in source order, then the live watch-status query (passed
in as its network outcome), and finally the folder addition.  Returns the
outcome together with the updated in-memory state. -/
def processCandidate (st : BatchState) (best : MediaItem)
    (watchResp : Except Unit (Option WatchingInfo)) : Outcome × BatchState :=
  if isAnime best then (.skippedAnime, st)
  else if ratingRejected best then (.skippedRating, st)
  else if best.subscribed then
    (.subscribedToWatched,
      { st with allWatchedItems := st.allWatchedItems ++ [⟨best.id, best.title⟩] })
  else if st.bookmarkedItems.any (fun b => matchesLocal b best) then
    (.skippedBookmarked, st)
  else if st.allWatchedItems.any (fun w => matchesLocal w best) then
    (.skippedWatched, st)
  else if st.currentAIFolderItems.any (fun it => folderDupMatch it best) then
    (.skippedInAIFolder, st)
  else if (isItemWatched watchResp).isWatched then
    (.watchingToWatched,
      { st with allWatchedItems := st.allWatchedItems ++ [⟨best.id, best.title⟩] })
  else
    (.addedToFolder,
      { st with currentAIFolderItems := st.currentAIFolderItems ++ [best] })

/-- Sequential processing of a batch: each entry pairs the suggestion's
search hit with the outcome of its watch-status request.  Returns the per-
suggestion outcomes in order. -/
def runBatch (st : BatchState) :
    List (MediaItem × Except Unit (Option WatchingInfo)) → List Outcome
  | [] => []
  | (c, w) :: rest =>
    let r := processCandidate st c w
    r.1 :: runBatch r.2 rest

end Reconciliation

section BulkClean

/-- A remote bookmark folder descriptor. -/
structure RemoteFolder where
  id : Nat
  title : Title
  deriving Repr, DecidableEq

/-- The fixed allow-list of the bulk-clean script
(`MANAGED_FOLDERS`, clean-bookmarks script line 26). -/
def MANAGED_FOLDERS : List Title := ["tv-shows-ai".data, "movies-ai".data]

/-- Target-name selection of `cleanBookmarks` (lines 29-50): provided names
are kept when they equal a managed name case-insensitively or merely contain
it as a substring; with no names provided, all managed names are targeted. -/
def cleanTargetNames (folderNames : Option (List Title)) : List Title :=
  match folderNames with
  | some ns =>
    if ns.isEmpty then MANAGED_FOLDERS
    else
      ns.filter (fun n =>
        MANAGED_FOLDERS.any (fun m =>
          jsToLower m == jsToLower n ||
          containsSub (jsToLower n) (jsToLower m)))
  | none => MANAGED_FOLDERS

/-- Folder selection of `cleanBookmarks` (lines 58-63): a remote folder is
cleaned when its title equals a target name case-insensitively or contains it
as a substring. -/
def foldersToClean (targets : List Title) (allFolders : List RemoteFolder) :
    List RemoteFolder :=
  allFolders.filter (fun f =>
    targets.any (fun t =>
      jsToLower f.title == jsToLower t ||
      containsSub (jsToLower f.title) (jsToLower t)))

/-- The remove operations issued by one `cleanBookmarks` run (lines 77-104):
for every selected folder, every item currently in it is removed.  Each
operation is the pair (item id, folder id). -/
def cleanBookmarksRemovals (folderNames : Option (List Title))
    (allFolders : List RemoteFolder) (contents : Nat → List BookmarkItem) :
    List (Nat × Nat) :=
  let targets := cleanTargetNames folderNames
  if targets.isEmpty then []
  else
    (foldersToClean targets allFolders).flatMap
      (fun f => (contents f.id).map (fun it => (it.id, f.id)))

/-- `KinoPubClient.findBookmarkFolderByName` (`kino-pub-client.ts` lines
207-218): the first folder whose title equals the name case-insensitively,
`none` when absent. -/
def findBookmarkFolderByName (folders : List RemoteFolder) (name : Title) :
    Option RemoteFolder :=
  folders.find? (fun f => jsToLower f.title == jsToLower name)

end BulkClean

section SpecNormalizer

/-- Modelled from the spec: the §4.4 normalization pipeline the claims are
compared against — lower-case, strip a trailing `"(YYYY)"`, strip the
language segment before the first `/`. -/
def specNormalize (t : Title) : Title :=
  dropLangSegment (stripYearSuffix (jsToLower t))

/-- Modelled from the spec: the §4.4 tight key — colons, hyphens and
whitespace removed after normalization. -/
def specTightKey (t : Title) : Title :=
  (specNormalize t).filter (fun c => !(c == ':' || c == '-' || isSpaceChar c))

/-- Modelled from the spec: §4.4 equivalence — mutual containment after
normalization, or identical tight keys. -/
def specEquivalent (a b : Title) : Bool :=
  containsSub (specNormalize a) (specNormalize b) ||
  containsSub (specNormalize b) (specNormalize a) ||
  specTightKey a == specTightKey b

end SpecNormalizer

/-- C1 counterexample: "Breaking Bad (2008)" and the exclusion record
"Во все тяжкое / Breaking Bad" are equivalent under the spec's normalization
pipeline (their normal forms coincide and their tight keys are equal), yet
the pre-search filter keeps the suggestion — it compares against the segment
of the exclusion title *before* the first `/` — so the suggestion proceeds
to the search loop. -/
theorem prefilter_spec_counterexample :
    specEquivalent "Breaking Bad (2008)".data "Во все тяжкое / Breaking Bad".data = true ∧
    specTightKey "Breaking Bad (2008)".data =
      specTightKey "Во все тяжкое / Breaking Bad".data ∧
    isExcludedRec (buildExcludedTitles ["Во все тяжкое / Breaking Bad".data] [] [])
      "Breaking Bad (2008)".data = false ∧
    filterRecommendations
      (buildExcludedTitles ["Во все тяжкое / Breaking Bad".data] [] [])
      ["Breaking Bad (2008)".data] = ["Breaking Bad (2008)".data] :=
  ⟨by decide, by decide, by decide, by decide⟩

/-- C1 amended: the pre-search filter removes a suggestion exactly on mutual
substring containment between the lower-cased, year-stripped suggestion
title and the segment of an excluded title before its first `/`; tight keys
are not consulted, and a dual-language exclusion record whose English part
follows the `/` does not suppress the matching English suggestion. -/
theorem prefilter_containment_amended
    (excludedTitles recs : List Title) (rec e : Title)
    (he : e ∈ excludedTitles)
    (hmatch :
      containsSub (jsToLower (jsTrim (beforeSlash e)))
        (jsToLower (jsTrim (jsToLower (parseRecTitle rec)))) = true ∨
      containsSub (jsToLower (jsTrim (jsToLower (parseRecTitle rec))))
        (jsToLower (jsTrim (beforeSlash e))) = true) :
    rec ∉ filterRecommendations excludedTitles recs := by
  intro hmem
  rw [filterRecommendations, List.mem_filter] at hmem
  have hexc : isExcludedRec excludedTitles rec = true := by
    rw [isExcludedRec]
    refine List.any_eq_true.mpr ⟨e, he, ?_⟩
    rcases hmatch with h | h <;> simp [h]
  rw [hexc] at hmem
  simp at hmem

/-- Witness for the amended C1: the suggestion "Dark (2017)" against an
exclusion title "dark" is filtered out before any search. -/
theorem prefilter_containment_amended_witness :
    "Dark (2017)".data ∉ filterRecommendations ["dark".data] ["Dark (2017)".data] :=
  prefilter_containment_amended ["dark".data] ["Dark (2017)".data]
    "Dark (2017)".data "dark".data (by simp) (Or.inl (by decide))

/-- C2: the bulk-clean folder selection matches remote folder titles by
substring, so a run with no folder argument issues a remove operation
against a folder titled "old-movies-aid" — a name outside the
{movies-ai, tv-shows-ai} allow-list that merely contains "movies-ai" —
while the exact case-insensitive lookup used by the not-interested cleanup
does not select that folder. -/
theorem bulk_clean_substring_violation :
    cleanBookmarksRemovals none [⟨7, "old-movies-aid".data⟩]
      (fun _ => [⟨42, "x".data⟩]) = [(42, 7)] ∧
    (jsToLower "old-movies-aid".data ≠ jsToLower "movies-ai".data ∧
     jsToLower "old-movies-aid".data ≠ jsToLower "tv-shows-ai".data) ∧
    findBookmarkFolderByName [⟨7, "old-movies-aid".data⟩] "movies-ai".data = none ∧
    findBookmarkFolderByName [⟨7, "old-movies-aid".data⟩] "tv-shows-ai".data = none :=
  ⟨by decide, ⟨by decide, by decide⟩, by decide, by decide⟩

/-- C5: `isAuthenticated()` returns true exactly when a token pair is stored
and its expiry is strictly greater than now plus 5 minutes; in particular it
is false when no pair is stored or when the expiry is within the buffer. -/
theorem isAuthenticated_iff_valid_pair (tokens : Option StoredTokens) (now : Int) :
    isAuthenticated tokens now = true ↔
      ∃ t, tokens = some t ∧ t.accessTokenExpire > now + 5 * 60 * 1000 := by
  cases tokens with
  | none => simp [isAuthenticated]
  | some t => simp [isAuthenticated]

/-- Witness for C5 at the ±1-second boundary values around `now + 5min`
(now = 0, buffer 300000 ms) and at the empty store. -/
theorem isAuthenticated_iff_valid_pair_witness :
    isAuthenticated (some ⟨"a", "r", 301000⟩) 0 = true ∧
    isAuthenticated (some ⟨"a", "r", 300001⟩) 0 = true ∧
    isAuthenticated (some ⟨"a", "r", 300000⟩) 0 = false ∧
    isAuthenticated (some ⟨"a", "r", 299000⟩) 0 = false ∧
    isAuthenticated none 0 = false :=
  ⟨(isAuthenticated_iff_valid_pair _ 0).mpr ⟨_, rfl, by decide⟩,
   (isAuthenticated_iff_valid_pair _ 0).mpr ⟨_, rfl, by decide⟩,
   by decide, by decide, by decide⟩

/-- C4: against an endpoint that always answers HTTP 500, the resilient
wrapper issues exactly 3 attempts, sleeping `retryDelay * attempt`
(2000 ms, then 4000 ms) between them, and then surfaces a server error; it
never issues a 4th attempt and never returns normally. -/
theorem server_error_retry_cap (resp : Nat → ReqResult) (refreshOk : Nat → Bool)
    (h : ∀ n, resp n = .http 500) :
    makeAuthenticatedRequest resp refreshOk =
      ⟨.error .serverError, 3, [2000, 4000]⟩ := by
  simp [makeAuthenticatedRequest, requestLoop, h 1, h 2, h 3]

/-- Witness for C4 at the constant HTTP-500 endpoint. -/
theorem server_error_retry_cap_witness :
    makeAuthenticatedRequest (fun _ => .http 500) (fun _ => true) =
      ⟨.error .serverError, 3, [2000, 4000]⟩ :=
  server_error_retry_cap _ _ (fun _ => rfl)

/-- C9: the rating filter skips exactly the candidates that carry a nonzero
IMDB-equivalent rating below the kind-specific floor — movies below 6.0,
serials below 7.0 — and a skipped candidate is never added to a folder. -/
theorem rating_floor_filter :
    (∀ best : MediaItem, ratingRejected best = true ↔
      ∃ r, best.imdbRating = some r ∧ ¬ r = 0 ∧
        ((isMovieHit best = true ∧ r < 6) ∨ (isSerialHit best = true ∧ r < 7))) ∧
    (∀ (st : BatchState) (best : MediaItem) w,
      ratingRejected best = true → isAnime best = false →
      (processCandidate st best w).1 = .skippedRating) := by
  constructor
  · intro best
    unfold ratingRejected
    cases hr : best.imdbRating with
    | none => simp [hr]
    | some r =>
      simp only [hr, Option.some_inj]
      split_ifs with h0 hm hs
      · simp only [Bool.false_eq_true, false_iff]
        rintro ⟨r', hr', h0', _⟩
        subst hr'
        exact h0' h0
      · simp only [true_iff]
        exact ⟨r, rfl, h0, Or.inl hm⟩
      · simp only [true_iff]
        exact ⟨r, rfl, h0, Or.inr hs⟩
      · simp only [Bool.false_eq_true, false_iff]
        rintro ⟨r', hr', _, hcase⟩
        subst hr'
        rcases hcase with hc | hc
        · exact hm hc
        · exact hs hc
  · intro st best w hreject hanime
    simp [processCandidate, hreject, hanime]

/-- Witness for C9: a movie rated 5.8 is rejected, a serial rated 7.2 passes
the rating filter and, with nothing excluding it, is added to a folder. -/
theorem rating_floor_filter_witness :
    ratingRejected ⟨1, "m".data, movieStr, none, [], some (Rat.mk' 29 5), false⟩ = true ∧
    (processCandidate ⟨[], [], []⟩
        ⟨1, "m".data, movieStr, none, [], some (Rat.mk' 29 5), false⟩ (.error ())).1 =
      .skippedRating ∧
    ratingRejected ⟨2, "s".data, serialStr, none, [], some (Rat.mk' 36 5), false⟩ = false :=
  ⟨(rating_floor_filter.1 _).mpr
      ⟨Rat.mk' 29 5, rfl, by decide, Or.inl ⟨by decide, by decide⟩⟩,
   rating_floor_filter.2 _ _ (.error ())
     (by decide)
     (by decide),
   by decide⟩

/-- When every page up to `T` reports pagination total `T`, the accumulation
loop starting at page `cur = T - k` collects the items of pages `cur..T`. -/
theorem folderPagesLoop_consistent (pages : Nat → FolderPage) (T : Nat)
    (hT : 1 < T) (hcons : ∀ p, 1 ≤ p → p ≤ T → (pages p).pagination = some ⟨p, T⟩) :
    ∀ k cur acc fuel, 1 ≤ cur → cur + k = T → k + 1 ≤ fuel →
      folderPagesLoop pages fuel cur acc =
        some (acc ++ ((List.range' cur (k + 1)).map (fun p => (pages p).items)).flatten) := by
  intro k
  induction k with
  | zero =>
    intro cur acc fuel h1 hsum hfuel
    cases fuel with
    | zero => omega
    | succ f =>
      have hpag := hcons cur h1 (by omega)
      simp only [folderPagesLoop, hpag]
      rw [if_pos (by omega : T > 1), if_neg (by omega : ¬ (cur + 1 ≤ T))]
      simp
  | succ k ih =>
    intro cur acc fuel h1 hsum hfuel
    cases fuel with
    | zero => omega
    | succ f =>
      have hpag := hcons cur h1 (by omega)
      simp only [folderPagesLoop, hpag]
      rw [if_pos (by omega : T > 1), if_pos (by omega : cur + 1 ≤ T)]
      rw [ih (cur + 1) (acc ++ (pages cur).items) f (by omega) (by omega) (by omega)]
      simp [List.range'_succ, List.append_assoc]

/-- C8: `getAllBookmarkFolderItems` concatenates all pages in page order when
the folder's pagination metadata reports `total` pages greater than 1, and
returns exactly page 1's items when the metadata is absent or reports a
single page. -/
theorem getAllFolderItems_pages (pages : Nat → FolderPage) :
    (∀ T fuel, 1 < T → T ≤ fuel →
      (∀ p, 1 ≤ p → p ≤ T → (pages p).pagination = some ⟨p, T⟩) →
      getAllBookmarkFolderItems pages fuel =
        some (((List.range' 1 T).map (fun p => (pages p).items)).flatten)) ∧
    (∀ fuel, 1 ≤ fuel → (pages 1).pagination = none →
      getAllBookmarkFolderItems pages fuel = some (pages 1).items) ∧
    (∀ fuel pg, 1 ≤ fuel → (pages 1).pagination = some pg → pg.total ≤ 1 →
      getAllBookmarkFolderItems pages fuel = some (pages 1).items) := by
  refine ⟨?_, ?_, ?_⟩
  · intro T fuel hT hfuel hcons
    unfold getAllBookmarkFolderItems
    have h := folderPagesLoop_consistent pages T hT hcons (T - 1) 1 [] fuel
      (by omega) (by omega) (by omega)
    rw [h]
    have : T - 1 + 1 = T := by omega
    rw [this]
    simp
  · intro fuel hfuel hnone
    cases fuel with
    | zero => omega
    | succ f => simp [getAllBookmarkFolderItems, folderPagesLoop, hnone]
  · intro fuel pg hfuel hpg htot
    cases fuel with
    | zero => omega
    | succ f =>
      simp only [getAllBookmarkFolderItems, folderPagesLoop, hpg]
      rw [if_neg (by omega : ¬ pg.total > 1)]
      simp

/-- Concrete three-page folder used as the C8 witness. -/
def pagesW3 : Nat → FolderPage :=
  fun p =>
    if p = 1 then ⟨[⟨11, "a".data⟩], some ⟨1, 3⟩⟩
    else if p = 2 then ⟨[⟨12, "b".data⟩], some ⟨2, 3⟩⟩
    else if p = 3 then ⟨[⟨13, "c".data⟩], some ⟨3, 3⟩⟩
    else ⟨[], none⟩

/-- Concrete single-page folder used as the C8 witness. -/
def pagesW1 : Nat → FolderPage :=
  fun p => if p = 1 then ⟨[⟨21, "d".data⟩], none⟩ else ⟨[], none⟩

/-- Witness for C8: the three-page folder yields the concatenation of its
pages, the single-page folder yields exactly page 1. -/
theorem getAllFolderItems_pages_witness :
    getAllBookmarkFolderItems pagesW3 3 =
      some [⟨11, "a".data⟩, ⟨12, "b".data⟩, ⟨13, "c".data⟩] ∧
    getAllBookmarkFolderItems pagesW1 1 = some [⟨21, "d".data⟩] :=
  ⟨((getAllFolderItems_pages pagesW3).1 3 3 (by decide) (by decide)
      (fun p h1 h2 => by interval_cases p <;> rfl)).trans (by decide),
   ((getAllFolderItems_pages pagesW1).2.1 1 (by decide) (by decide)).trans rfl⟩

/-- Consuming `k` consecutive `authorization_pending` answers advances the
polling loop by `k` attempts, spending `k` fuel and sleeping the poll
interval once per answer. -/
theorem pollLoop_pending_steps (resp : Nat → PollResp) (ivl : Nat) :
    ∀ k a ds fuel, (∀ i, i < k → resp (a + i) = .pending) → k ≤ fuel →
      pollLoop resp ivl fuel a ds =
        pollLoop resp ivl (fuel - k) (a + k) (ds ++ List.replicate k ivl) := by
  intro k
  induction k with
  | zero => intro a ds fuel _ _; simp
  | succ k ih =>
    intro a ds fuel h hk
    cases fuel with
    | zero => omega
    | succ f =>
      have h0 : resp a = .pending := by simpa using h 0 (by omega)
      simp only [pollLoop, h0]
      rw [ih (a + 1) (ds ++ [ivl]) f
        (fun i hi => by simpa [Nat.add_assoc, Nat.add_comm 1 i] using h (i + 1) (by omega))
        (by omega)]
      have e1 : f + 1 - (k + 1) = f - k := by omega
      have e2 : a + (k + 1) = a + 1 + k := by omega
      have e3 : ds ++ List.replicate (k + 1) ivl = ds ++ [ivl] ++ List.replicate k ivl := by
        simp [List.replicate_succ]
      rw [e1, e2, e3]

/-- C7: device-flow polling waits `max(serverInterval, 2.5s)` between
attempts, keeps polling on `authorization_pending`, fails fast on
`code_expired` and on any other error, times out after exactly 120 attempts,
and on success `authenticate()` returns true and persists a pair whose
expiry is `now + expires_in * 1000`. -/
theorem device_flow_polling :
    (∀ ivl, pollIntervalMs ivl = max (ivl * 1000) 2500) ∧
    (∀ resp ivl t k, k < 120 → (∀ i, i < k → resp i = .pending) →
      resp k = .success t →
      pollForToken resp ivl = ⟨.ok t, k + 1, List.replicate k (pollIntervalMs ivl)⟩) ∧
    (∀ resp ivl, (∀ i, resp i = .pending) →
      pollForToken resp ivl =
        ⟨.error .timeout, 120, List.replicate 120 (pollIntervalMs ivl)⟩) ∧
    (∀ resp ivl k, k < 120 → (∀ i, i < k → resp i = .pending) →
      resp k = .codeExpired →
      pollForToken resp ivl =
        ⟨.error .codeExpired, k + 1, List.replicate k (pollIntervalMs ivl)⟩) ∧
    (∀ resp ivl k, k < 120 → (∀ i, i < k → resp i = .pending) →
      resp k = .otherError →
      pollForToken resp ivl =
        ⟨.error .tokenRequestFailed, k + 1, List.replicate k (pollIntervalMs ivl)⟩) ∧
    (∀ resp ivl t (now : Int) st0, (∀ i, i < 10 → resp i = .pending) →
      resp 10 = .success t →
      authenticate resp ivl now st0 =
        (true, some ⟨t.access_token, t.refresh_token, now + t.expires_in * 1000⟩)) := by
  have hsucc : ∀ (resp : Nat → PollResp) ivl t k, k < 120 →
      (∀ i, i < k → resp i = .pending) → resp k = .success t →
      pollForToken resp ivl = ⟨.ok t, k + 1, List.replicate k (pollIntervalMs ivl)⟩ := by
    intro resp ivl t k hk hp hs
    unfold pollForToken
    rw [pollLoop_pending_steps resp (pollIntervalMs ivl) k 0 [] 120
      (fun i hi => by simpa using hp i hi) (by omega)]
    obtain ⟨m, hm⟩ : ∃ m, 120 - k = m + 1 := ⟨119 - k, by omega⟩
    rw [hm]
    simp only [Nat.zero_add, pollLoop, hs, List.nil_append]
  refine ⟨fun _ => rfl, hsucc, ?_, ?_, ?_, ?_⟩
  · intro resp ivl hp
    unfold pollForToken
    rw [pollLoop_pending_steps resp (pollIntervalMs ivl) 120 0 [] 120
      (fun i _ => hp (0 + i)) (by omega)]
    simp only [Nat.sub_self, pollLoop, List.nil_append]
  · intro resp ivl k hk hp hc
    unfold pollForToken
    rw [pollLoop_pending_steps resp (pollIntervalMs ivl) k 0 [] 120
      (fun i hi => by simpa using hp i hi) (by omega)]
    obtain ⟨m, hm⟩ : ∃ m, 120 - k = m + 1 := ⟨119 - k, by omega⟩
    rw [hm]
    simp only [Nat.zero_add, pollLoop, hc, List.nil_append]
  · intro resp ivl k hk hp ho
    unfold pollForToken
    rw [pollLoop_pending_steps resp (pollIntervalMs ivl) k 0 [] 120
      (fun i hi => by simpa using hp i hi) (by omega)]
    obtain ⟨m, hm⟩ : ∃ m, 120 - k = m + 1 := ⟨119 - k, by omega⟩
    rw [hm]
    simp only [Nat.zero_add, pollLoop, ho, List.nil_append]
  · intro resp ivl t now st0 hp hs
    have h := hsucc resp ivl t 10 (by omega) hp hs
    simp [authenticate, h, tokensFromResponse]

/-- Concrete polling endpoint for the C7 witness: pending for ten attempts,
then success. -/
def pollRespW : Nat → PollResp :=
  fun n => if n < 10 then .pending else .success ⟨"at", "rt", 3600⟩

/-- Witness for C7: ten `authorization_pending` answers then success gives a
successful `authenticate()` run that persists expiry `now + expires_in*1000`,
with eleven attempts and a 5000 ms sleep (interval 5 s) after each pending. -/
theorem device_flow_polling_witness :
    authenticate pollRespW 5 0 none = (true, some ⟨"at", "rt", 3600000⟩) ∧
    pollForToken pollRespW 5 =
      ⟨.ok ⟨"at", "rt", 3600⟩, 11, List.replicate 10 5000⟩ :=
  ⟨(device_flow_polling.2.2.2.2.2 pollRespW 5 ⟨"at", "rt", 3600⟩ 0 none
      (fun i hi => by interval_cases i <;> rfl) rfl).trans (by decide),
   (device_flow_polling.2.1 pollRespW 5 ⟨"at", "rt", 3600⟩ 10 (by omega)
      (fun i hi => by interval_cases i <;> rfl) rfl).trans (by norm_num [pollIntervalMs])⟩

/-- C6 counterexample: with an expired stored pair and a succeeding refresh,
`getAccessToken` hands out the fresh access token but leaves the stored pair
unchanged, and the unchanged pair differs from what `storeTokens` would have
persisted for that refresh response. -/
theorem getAccessToken_no_persist_counterexample :
    getAccessToken (some ⟨"oldA", "oldR", 1000⟩) 1000000 (.ok ⟨"newA", "newR", 3600⟩) =
      .ok ("newA", some ⟨"oldA", "oldR", 1000⟩) ∧
    (⟨"oldA", "oldR", 1000⟩ : StoredTokens) ≠
      tokensFromResponse ⟨"newA", "newR", 3600⟩ 1000000 :=
  ⟨rfl, by decide⟩

/-- C6 amended: a successful refresh through `refreshSession()` persists the
new pair, but a refresh triggered inside `getAccessToken()` never changes the
stored pair — the caller gets the fresh access token while storage keeps the
pre-refresh pair. -/
theorem refresh_persistence_amended :
    (∀ (t : StoredTokens) (now : Int) r, ¬ t.refreshToken = "" →
      refreshSession (some t) now (.ok r) = (true, some (tokensFromResponse r now))) ∧
    (∀ (t : StoredTokens) (now : Int) rr a st',
      getAccessToken (some t) now rr = .ok (a, st') → st' = some t) := by
  constructor
  · intro t now r hne
    simp [refreshSession, hne]
  · intro t now rr a st' h
    simp only [getAccessToken] at h
    split at h
    · simp only [Except.ok.injEq, Prod.mk.injEq] at h
      exact h.2.symm
    · cases rr with
      | ok r =>
        simp only [Except.ok.injEq, Prod.mk.injEq] at h
        exact h.2.symm
      | error e => simp at h

/-- Witness for the amended C6 at concrete expired tokens and a concrete
refresh response. -/
theorem refresh_persistence_amended_witness :
    refreshSession (some ⟨"oldA", "oldR", 1000⟩) 1000000 (.ok ⟨"newA", "newR", 3600⟩) =
      (true, some ⟨"newA", "newR", 4600000⟩) ∧
    some (⟨"oldA", "oldR", 1000⟩ : StoredTokens) = some ⟨"oldA", "oldR", 1000⟩ :=
  ⟨(refresh_persistence_amended.1 ⟨"oldA", "oldR", 1000⟩ 1000000 ⟨"newA", "newR", 3600⟩
      (by decide)).trans (by decide),
   refresh_persistence_amended.2 ⟨"oldA", "oldR", 1000⟩ 1000000
     (.ok ⟨"newA", "newR", 3600⟩) "newA" (some ⟨"oldA", "oldR", 1000⟩) rfl⟩

/-- C10: a failed watch-status request makes `isItemWatched` report the item
as unwatched instead of propagating the error, so a candidate that passed
every other filter is bookmarked despite the failure. -/
theorem watch_failure_bookmarks (st : BatchState) (best : MediaItem)
    (hAnime : isAnime best = false) (hRating : ratingRejected best = false)
    (hSub : best.subscribed = false)
    (hB : st.bookmarkedItems.any (fun b => matchesLocal b best) = false)
    (hW : st.allWatchedItems.any (fun w => matchesLocal w best) = false)
    (hF : st.currentAIFolderItems.any (fun it => folderDupMatch it best) = false) :
    isItemWatched (.error ()) = ⟨false, false, none⟩ ∧
    (processCandidate st best (.error ())).1 = .addedToFolder := by
  refine ⟨rfl, ?_⟩
  simp [processCandidate, hAnime, hRating, hSub, hB, hW, hF, isItemWatched]

/-- Witness for C10: empty caches and a plain candidate whose watch-status
request throws. -/
theorem watch_failure_bookmarks_witness :
    isItemWatched (.error ()) = ⟨false, false, none⟩ ∧
    (processCandidate ⟨[], [], []⟩
        ⟨7, "t".data, serialStr, none, [], none, false⟩ (.error ())).1 =
      .addedToFolder :=
  watch_failure_bookmarks ⟨[], [], []⟩ ⟨7, "t".data, serialStr, none, [], none, false⟩
    (by decide) (by decide) (by decide) (by decide) (by decide) (by decide)

/-- Unfolding equation for `runBatch` on a cons cell. -/
theorem runBatch_cons (st : BatchState) (c : MediaItem)
    (w : Except Unit (Option WatchingInfo))
    (rest : List (MediaItem × Except Unit (Option WatchingInfo))) :
    runBatch st ((c, w) :: rest) =
      (processCandidate st c w).1 :: runBatch (processCandidate st c w).2 rest := rfl

/-- `runBatch` yields one outcome per batch entry. -/
theorem runBatch_length (st : BatchState)
    (batch : List (MediaItem × Except Unit (Option WatchingInfo))) :
    (runBatch st batch).length = batch.length := by
  induction batch generalizing st with
  | nil => rfl
  | cons p rest ih =>
    obtain ⟨c, w⟩ := p
    rw [runBatch_cons, List.length_cons, List.length_cons, ih]

/-- Processing a candidate never removes items from the in-memory AI-folder
set. -/
theorem processCandidate_folder_mono (st : BatchState) (c : MediaItem)
    (w : Except Unit (Option WatchingInfo)) (x : MediaItem)
    (hx : x ∈ st.currentAIFolderItems) :
    x ∈ (processCandidate st c w).2.currentAIFolderItems := by
  unfold processCandidate
  split_ifs <;> simp [hx]

/-- A candidate matching an item already in the in-memory AI-folder set is
never the one added to a folder. -/
theorem processCandidate_not_added_of_dup (st : BatchState) (c : MediaItem)
    (w : Except Unit (Option WatchingInfo)) (x : MediaItem)
    (hx : x ∈ st.currentAIFolderItems) (hm : folderDupMatch x c = true) :
    (processCandidate st c w).1 ≠ .addedToFolder := by
  unfold processCandidate
  split_ifs with h1 h2 h3 h4 h5 h6 h7 <;> try simp
  exact absurd (List.any_eq_true.mpr ⟨x, hx, hm⟩) h6

/-- A candidate whose outcome is a folder addition ends up in the in-memory
AI-folder set. -/
theorem processCandidate_added_mem (st : BatchState) (c : MediaItem)
    (w : Except Unit (Option WatchingInfo))
    (h : (processCandidate st c w).1 = .addedToFolder) :
    c ∈ (processCandidate st c w).2.currentAIFolderItems := by
  unfold processCandidate at h ⊢
  split_ifs at h ⊢
  simp_all

/-- If some item of the starting in-memory AI-folder set matches a batch
entry, that entry's outcome is never a folder addition. -/
theorem runBatch_not_added_of_mem_state :
    ∀ (batch : List (MediaItem × Except Unit (Option WatchingInfo)))
      (st : BatchState) (x : MediaItem) (j : Nat)
      (hj : j < batch.length) (hj' : j < (runBatch st batch).length),
      x ∈ st.currentAIFolderItems →
      folderDupMatch x (batch.get ⟨j, hj⟩).1 = true →
      (runBatch st batch).get ⟨j, hj'⟩ ≠ .addedToFolder := by
  intro batch
  induction batch with
  | nil => intro st x j hj; exact absurd hj (by simp)
  | cons p rest ih =>
    obtain ⟨c, w⟩ := p
    intro st x j hj hj' hx hm
    cases j with
    | zero =>
      show (processCandidate st c w).1 ≠ .addedToFolder
      exact processCandidate_not_added_of_dup st c w x hx hm
    | succ j0 =>
      have hj0 : j0 < rest.length := Nat.lt_of_succ_lt_succ hj
      have hj0' : j0 < (runBatch (processCandidate st c w).2 rest).length := by
        rw [runBatch_length]; exact hj0
      show (runBatch (processCandidate st c w).2 rest).get ⟨j0, hj0'⟩ ≠ .addedToFolder
      exact ih (processCandidate st c w).2 x j0 hj0 hj0'
        (processCandidate_folder_mono st c w x hx) hm

/-- C3: within one sequential batch, once a suggestion's best match is added
to a managed folder, every later suggestion whose best match has the same
remote id or an equivalent title (the in-memory duplicate test) is not added
again — the same normalized title never enters a managed folder twice in one
batch. -/
theorem no_duplicate_folder_additions :
    ∀ (batch : List (MediaItem × Except Unit (Option WatchingInfo)))
      (st : BatchState) (i j : Nat)
      (hi : i < batch.length) (hj : j < batch.length)
      (hi' : i < (runBatch st batch).length) (hj' : j < (runBatch st batch).length),
      i < j →
      (runBatch st batch).get ⟨i, hi'⟩ = .addedToFolder →
      folderDupMatch (batch.get ⟨i, hi⟩).1 (batch.get ⟨j, hj⟩).1 = true →
      (runBatch st batch).get ⟨j, hj'⟩ ≠ .addedToFolder := by
  intro batch
  induction batch with
  | nil => intro st i j hi; exact absurd hi (by simp)
  | cons p rest ih =>
    obtain ⟨c, w⟩ := p
    intro st i j hi hj hi' hj' hij hadd hm
    cases j with
    | zero => exact absurd hij (by omega)
    | succ j0 =>
      have hj0 : j0 < rest.length := Nat.lt_of_succ_lt_succ hj
      have hj0' : j0 < (runBatch (processCandidate st c w).2 rest).length := by
        rw [runBatch_length]; exact hj0
      cases i with
      | zero =>
        have hadd0 : (processCandidate st c w).1 = .addedToFolder := hadd
        have hcmem : c ∈ (processCandidate st c w).2.currentAIFolderItems :=
          processCandidate_added_mem st c w hadd0
        show (runBatch (processCandidate st c w).2 rest).get ⟨j0, hj0'⟩ ≠ .addedToFolder
        exact runBatch_not_added_of_mem_state rest (processCandidate st c w).2 c
          j0 hj0 hj0' hcmem hm
      | succ i0 =>
        have hi0 : i0 < rest.length := Nat.lt_of_succ_lt_succ hi
        have hi0' : i0 < (runBatch (processCandidate st c w).2 rest).length := by
          rw [runBatch_length]; exact hi0
        show (runBatch (processCandidate st c w).2 rest).get ⟨j0, hj0'⟩ ≠ .addedToFolder
        exact ih (processCandidate st c w).2 i0 j0 hi0 hj0 hi0' hj0'
          (Nat.lt_of_succ_lt_succ hij) hadd hm

/-- First C3 witness suggestion: a plain movie hit. -/
def candDune : MediaItem := ⟨100, "Dune".data, movieStr, none, [], none, false⟩

/-- Second C3 witness suggestion: a different remote id for the same content
under a dual-language title. -/
def candDuneRu : MediaItem := ⟨101, "Дюна / Dune".data, movieStr, none, [], none, false⟩

/-- The C3 witness batch: both suggestions resolve to the same normalized
title; watch-status requests fail so neither is diverted to the watched
branch. -/
def dupBatch : List (MediaItem × Except Unit (Option WatchingInfo)) :=
  [(candDune, .error ()), (candDuneRu, .error ())]

/-- Witness for C3: the first suggestion is added, and the second — a
title-equivalent duplicate — is skipped as already in the AI folders. -/
theorem no_duplicate_folder_additions_witness :
    (runBatch ⟨[], [], []⟩ dupBatch).get ⟨1, by decide⟩ ≠ Outcome.addedToFolder ∧
    (runBatch ⟨[], [], []⟩ dupBatch).get ⟨0, by decide⟩ = Outcome.addedToFolder ∧
    (runBatch ⟨[], [], []⟩ dupBatch).get ⟨1, by decide⟩ = Outcome.skippedInAIFolder :=
  ⟨no_duplicate_folder_additions dupBatch ⟨[], [], []⟩ 0 1 (by decide) (by decide)
      (by decide) (by decide) (by decide) (by decide) (by decide),
   by decide, by decide⟩
